import Mathlib

/-!
Shallow embedding of the `templatehash` crate (`src/lib.rs`): byte-level
consensus encodings, SHA-256, the tagged-hash engine seeded with the
"TemplateHash" tag, the three field digesters, and the template-hash
combiner, together with theorems checking the specification's claims.

Bytes are modelled as natural numbers < 256 in `List Nat`; 32-bit and
64-bit machine integers are natural numbers reduced mod 2^32 / 2^64 at
the points where the code's fixed-width arithmetic truncates.
-/

namespace TemplateHashLib

/-! ### SHA-256 (FIPS 180-4), executable on `Nat` -/

/-- Truncate to a 32-bit word. -/
def w32 (n : Nat) : Nat := n % 4294967296

/-- Right rotation of a 32-bit word by `k` bits. -/
def rotr (k n : Nat) : Nat := w32 ((n >>> k) ||| (n <<< (32 - k)))

def bigSigma0 (x : Nat) : Nat := rotr 2 x ^^^ rotr 13 x ^^^ rotr 22 x

def bigSigma1 (x : Nat) : Nat := rotr 6 x ^^^ rotr 11 x ^^^ rotr 25 x

def smallSigma0 (x : Nat) : Nat := rotr 7 x ^^^ rotr 18 x ^^^ (x >>> 3)

def smallSigma1 (x : Nat) : Nat := rotr 17 x ^^^ rotr 19 x ^^^ (x >>> 10)

def ch (e f g : Nat) : Nat := (e &&& f) ^^^ ((e ^^^ 4294967295) &&& g)

def maj (a b c : Nat) : Nat := (a &&& b) ^^^ (a &&& c) ^^^ (b &&& c)

/-- The eight working registers / hash state words of SHA-256. -/
structure Regs where
  a : Nat
  b : Nat
  c : Nat
  d : Nat
  e : Nat
  f : Nat
  g : Nat
  h : Nat
deriving Repr, DecidableEq

/-- SHA-256 initial hash value (FIPS 180-4 §5.3.3, written in decimal). -/
def shaInit : Regs :=
  ⟨1779033703, 3144134277, 1013904242, 2773480762,
   1359893119, 2600822924, 528734635, 1541459225⟩

/-- SHA-256 round constants (FIPS 180-4 §4.2.2, written in decimal). -/
def shaK : List Nat :=
  [1116352408, 1899447441, 3049323471, 3921009573, 961987163, 1508970993,
   2453635748, 2870763221, 3624381080, 310598401, 607225278, 1426881987,
   1925078388, 2162078206, 2614888103, 3248222580, 3835390401, 4022224774,
   264347078, 604807628, 770255983, 1249150122, 1555081692, 1996064986,
   2554220882, 2821834349, 2952996808, 3210313671, 3336571891, 3584528711,
   113926993, 338241895, 666307205, 773529912, 1294757372, 1396182291,
   1695183700, 1986661051, 2177026350, 2456956037, 2730485921, 2820302411,
   3259730800, 3345764771, 3516065817, 3600352804, 4094571909, 275423344,
   430227734, 506948616, 659060556, 883997877, 958139571, 1322822218,
   1537002063, 1747873779, 1955562222, 2024104815, 2227730452, 2361852424,
   2428436474, 2756734187, 3204031479, 3329325298]

/-- Extend a 16-word message block, appending `fuel` schedule words. -/
def scheduleRec : Nat → List Nat → List Nat
  | 0, ws => ws
  | fuel + 1, ws =>
      let t := ws.length
      let nw := w32 (smallSigma1 (ws.getD (t - 2) 0) + ws.getD (t - 7) 0 +
                     smallSigma0 (ws.getD (t - 15) 0) + ws.getD (t - 16) 0)
      scheduleRec fuel (ws ++ [nw])

/-- One SHA-256 round. -/
def roundStep (k w : Nat) (r : Regs) : Regs :=
  let t1 := w32 (r.h + bigSigma1 r.e + ch r.e r.f r.g + k + w)
  let t2 := w32 (bigSigma0 r.a + maj r.a r.b r.c)
  ⟨w32 (t1 + t2), r.a, r.b, r.c, w32 (r.d + t1), r.e, r.f, r.g⟩

/-- Compress one 16-word block into the running hash state. -/
def compress1 (H : Regs) (block : List Nat) : Regs :=
  let ws := scheduleRec 48 block
  let r := (shaK.zip ws).foldl (fun r kw => roundStep kw.1 kw.2 r) H
  ⟨w32 (H.a + r.a), w32 (H.b + r.b), w32 (H.c + r.c), w32 (H.d + r.d),
   w32 (H.e + r.e), w32 (H.f + r.f), w32 (H.g + r.g), w32 (H.h + r.h)⟩

/-- Compress `fuel` successive 16-word blocks. -/
def compressBlocks : Nat → Regs → List Nat → Regs
  | 0, H, _ => H
  | fuel + 1, H, ws => compressBlocks fuel (compress1 H (ws.take 16)) (ws.drop 16)

/-- Big-endian bytes of a 32-bit word. -/
def u32BE (n : Nat) : List Nat :=
  [n / 16777216 % 256, n / 65536 % 256, n / 256 % 256, n % 256]

/-- Big-endian bytes of a 64-bit word. -/
def u64BE (n : Nat) : List Nat :=
  [n / 72057594037927936 % 256, n / 281474976710656 % 256,
   n / 1099511627776 % 256, n / 4294967296 % 256,
   n / 16777216 % 256, n / 65536 % 256, n / 256 % 256, n % 256]

/-- Group bytes into big-endian 32-bit words. -/
def toWordsBE : List Nat → List Nat
  | b0 :: b1 :: b2 :: b3 :: rest =>
      (b0 * 16777216 + b1 * 65536 + b2 * 256 + b3) :: toWordsBE rest
  | _ => []

/-- SHA-256 padding: append 0x80, zeros, and the 64-bit big-endian bit length. -/
def padMsg (msg : List Nat) : List Nat :=
  msg ++ 0x80 :: (List.replicate ((119 - msg.length % 64) % 64) 0 ++ u64BE (msg.length * 8))

/-- Serialize the final hash state, big-endian per word. -/
def digestBytes (H : Regs) : List Nat :=
  u32BE H.a ++ u32BE H.b ++ u32BE H.c ++ u32BE H.d ++
  u32BE H.e ++ u32BE H.f ++ u32BE H.g ++ u32BE H.h

/-- SHA-256 of a byte string. -/
def sha256 (msg : List Nat) : List Nat :=
  let ws := toWordsBE (padMsg msg)
  digestBytes (compressBlocks (ws.length / 16) shaInit ws)

/-! ### Consensus byte encodings (rust-bitcoin `consensus_encode`) -/

/-- Little-endian bytes of a 16-bit integer. -/
def u16LE (n : Nat) : List Nat := [n % 256, n / 256 % 256]

/-- Little-endian bytes of a 32-bit integer (`Version`, `LockTime`,
`Sequence` and `input_index` all encode this way). -/
def u32LE (n : Nat) : List Nat :=
  [n % 256, n / 256 % 256, n / 65536 % 256, n / 16777216 % 256]

/-- Little-endian bytes of a 64-bit integer (`Amount`). -/
def u64LE (n : Nat) : List Nat :=
  [n % 256, n / 256 % 256, n / 65536 % 256, n / 16777216 % 256,
   n / 4294967296 % 256, n / 1099511627776 % 256,
   n / 281474976710656 % 256, n / 72057594037927936 % 256]

/-- Bitcoin compact-size variable-length integer (`VarInt` encoding). -/
def varInt (n : Nat) : List Nat :=
  if n < 0xfd then [n]
  else if n ≤ 0xffff then 0xfd :: u16LE n
  else if n ≤ 0xffffffff then 0xfe :: u32LE n
  else 0xff :: u64LE n

/-- A transaction output: amount in satoshis plus output script bytes. -/
structure TxOut where
  value : Nat
  script_pubkey : List Nat
deriving Repr, DecidableEq

/-- Consensus encoding of a `TxOut`: 8-byte LE amount, then the script
prefixed with its compact-size length. -/
def txOutEncode (o : TxOut) : List Nat :=
  u64LE o.value ++ varInt o.script_pubkey.length ++ o.script_pubkey

/-- A transaction previous-output reference (not committed by the hash). -/
structure OutPoint where
  txid : List Nat
  vout : Nat
deriving Repr, DecidableEq

/-- A transaction input; only `sequence` participates in the template hash. -/
structure TxIn where
  previous_output : OutPoint
  script_sig : List Nat
  sequence : Nat
  witness : List (List Nat)
deriving Repr, DecidableEq

/-- A full transaction (version, lock time, inputs, outputs). -/
structure Transaction where
  version : Nat
  lock_time : Nat
  input : List TxIn
  output : List TxOut
deriving Repr, DecidableEq

/-- `TransactionTemplate` from `lib.rs`: just the four committed fields. -/
structure TransactionTemplate where
  version : Nat
  lock_time : Nat
  sequences : List Nat
  outputs : List TxOut
deriving Repr, DecidableEq

/-! ### Field digesters (`compute_sha_iter`, `sha_sequences`, `sha_outputs`,
`sha_annex` from `lib.rs`) -/

/-- `compute_sha_iter`: feed the consensus encoding of each item into one
SHA-256 engine (modelled as the accumulated byte list) and finalize. -/
def compute_sha_iter (encodeOne : α → List Nat) (items : List α) : List Nat :=
  sha256 (items.foldl (fun acc it => acc ++ encodeOne it) [])

/-- `sha_sequences`: digest of all input sequence numbers, 4-byte LE each. -/
def sha_sequences (seqs : List Nat) : List Nat :=
  compute_sha_iter u32LE seqs

/-- `sha_outputs`: digest of all consensus-encoded outputs. -/
def sha_outputs (outs : List TxOut) : List Nat :=
  compute_sha_iter txOutEncode outs

/-- `sha_annex`: digest of the annex bytes prefixed with their compact-size
length; the content (marker byte included or not) is not validated. -/
def sha_annex (annex : List Nat) : List Nat :=
  sha256 (varInt annex.length ++ annex)

/-! ### Tagged-hash engine and the template-hash combiner -/

/-- ASCII bytes of the fixed tag string "TemplateHash". -/
def templateTag : List Nat :=
  [0x54, 0x65, 0x6d, 0x70, 0x6c, 0x61, 0x74, 0x65, 0x48, 0x61, 0x73, 0x68]

/-- The tagged engine's pre-seeded prefix: `SHA256(tag) ‖ SHA256(tag)`. -/
def tagSeed : List Nat := sha256 templateTag ++ sha256 templateTag

/-- The bytes written into the tagged engine by `templatehash`, in the
source's write order: version, lock time, the two digests, the annex
presence byte, the input index, and the annex digest only when present. -/
def templatehashMessage (version lock_time : Nat) (sha_seq sha_out : List Nat)
    (input_index : Nat) (sha_ann : Option (List Nat)) : List Nat :=
  let e : List Nat := []
  let e := e ++ u32LE version
  let e := e ++ u32LE lock_time
  let e := e ++ sha_seq
  let e := e ++ sha_out
  let annex_present : Nat := if sha_ann.isSome then 1 else 0
  let e := e ++ [annex_present]
  let e := e ++ u32LE input_index
  match sha_ann with
  | some d => e ++ d
  | none => e

/-- `templatehash` from `lib.rs`: finalize the tagged engine over the
written message. -/
def templatehash (version lock_time : Nat) (sha_seq sha_out : List Nat)
    (input_index : Nat) (sha_ann : Option (List Nat)) : List Nat :=
  sha256 (tagSeed ++ templatehashMessage version lock_time sha_seq sha_out input_index sha_ann)

/-! ### The two template views (`ToTemplateHash` impls) -/

/-- `ToTemplateHash for &Transaction` (release semantics: the
`debug_assert!` is compiled out). -/
def Transaction.to_templatehash (tx : Transaction) (input_index : Nat)
    (annex : Option (List Nat)) : List Nat :=
  templatehash tx.version tx.lock_time
    (sha_sequences (tx.input.map TxIn.sequence))
    (sha_outputs tx.output)
    input_index
    (annex.map sha_annex)

/-- `ToTemplateHash for &TransactionTemplate` (release semantics). -/
def TransactionTemplate.to_templatehash (t : TransactionTemplate) (input_index : Nat)
    (annex : Option (List Nat)) : List Nat :=
  templatehash t.version t.lock_time
    (sha_sequences t.sequences)
    (sha_outputs t.outputs)
    input_index
    (annex.map sha_annex)

/-- Debug-build semantics of `ToTemplateHash for &Transaction`: the
`debug_assert!((input_index as usize) < self.input.len())` aborts
(modelled as `none`) when the index is out of range. -/
def Transaction.to_templatehash_debug (tx : Transaction) (input_index : Nat)
    (annex : Option (List Nat)) : Option (List Nat) :=
  if input_index < tx.input.length then
    some (tx.to_templatehash input_index annex)
  else
    none

/-- Debug-build semantics of `ToTemplateHash for &TransactionTemplate`. -/
def TransactionTemplate.to_templatehash_debug (t : TransactionTemplate) (input_index : Nat)
    (annex : Option (List Nat)) : Option (List Nat) :=
  if input_index < t.sequences.length then
    some (t.to_templatehash input_index annex)
  else
    none

/-! ### Spec-side formulation helpers -/

/-- Concatenation of the encodings of all items in list order; the spec's
"SHA-256 over the concatenation ... in list order" formulation, to be
compared with the engine-fold in `compute_sha_iter`. -/
def concatEncode (encodeOne : α → List Nat) : List α → List Nat
  | [] => []
  | x :: xs => encodeOne x ++ concatEncode encodeOne xs

/-! ### Basic lemmas -/

theorem sha256_length (msg : List Nat) : (sha256 msg).length = 32 := rfl

theorem u32LE_length (n : Nat) : (u32LE n).length = 4 := rfl

theorem u64LE_length (n : Nat) : (u64LE n).length = 8 := rfl

theorem sha_sequences_length (seqs : List Nat) : (sha_sequences seqs).length = 32 :=
  sha256_length _

theorem sha_outputs_length (outs : List TxOut) : (sha_outputs outs).length = 32 :=
  sha256_length _

theorem sha_annex_length (annex : List Nat) : (sha_annex annex).length = 32 :=
  sha256_length _

theorem foldl_append_encode (encodeOne : α → List Nat) :
    ∀ (items : List α) (acc : List Nat),
      items.foldl (fun a it => a ++ encodeOne it) acc = acc ++ concatEncode encodeOne items
  | [], acc => by simp [concatEncode]
  | x :: xs, acc => by
      simp [List.foldl_cons, concatEncode, foldl_append_encode encodeOne xs,
        List.append_assoc]

theorem compute_sha_iter_eq (encodeOne : α → List Nat) (items : List α) :
    compute_sha_iter encodeOne items = sha256 (concatEncode encodeOne items) := by
  simp [compute_sha_iter, foldl_append_encode]

theorem getD_append_of_length (xs ys : List Nat) (n d : Nat) (h : xs.length = n) :
    (xs ++ ys).getD n d = ys.getD 0 d := by
  subst h
  induction xs with
  | nil => rfl
  | cons x xs ih => simpa using ih

/-- The message written by `templatehash`, regrouped as the 72-byte prefix
before the annex-presence flag, the flag, the index, and the annex part. -/
theorem templatehashMessage_decompose (version lock_time : Nat)
    (sha_seq sha_out : List Nat) (input_index : Nat) (sha_ann : Option (List Nat)) :
    templatehashMessage version lock_time sha_seq sha_out input_index sha_ann =
      (u32LE version ++ u32LE lock_time ++ sha_seq ++ sha_out) ++
        ((if sha_ann.isSome then 1 else 0) ::
          (u32LE input_index ++ sha_ann.getD [])) := by
  cases sha_ann <;>
    simp [templatehashMessage, List.append_assoc]

theorem templatehashMessage_length (version lock_time : Nat)
    (sha_seq sha_out : List Nat) (input_index : Nat) (sha_ann : Option (List Nat)) :
    (templatehashMessage version lock_time sha_seq sha_out input_index sha_ann).length =
      13 + sha_seq.length + sha_out.length + (sha_ann.getD []).length := by
  cases sha_ann <;>
    simp [templatehashMessage, u32LE] <;> omega

/-! ### Claim theorems -/

/-- C1: the low-level `templatehash` returns the tagged hash
`SHA256(SHA256("TemplateHash") ‖ SHA256("TemplateHash") ‖ m)` where `m` is
version (4 LE) ‖ lock_time (4 LE) ‖ sha_sequences ‖ sha_outputs ‖ presence
byte (1 if the annex digest is present, else 0) ‖ input_index (4 LE) ‖ the
annex digest only when present. -/
theorem c1_templatehash_tagged_formula (version lock_time : Nat)
    (sha_seq sha_out : List Nat) (input_index : Nat) (sha_ann : Option (List Nat)) :
    templatehash version lock_time sha_seq sha_out input_index sha_ann =
      sha256 (sha256 templateTag ++ sha256 templateTag ++
        (u32LE version ++ u32LE lock_time ++ sha_seq ++ sha_out ++
         [if sha_ann.isSome then 1 else 0] ++ u32LE input_index ++ sha_ann.getD [])) := by
  cases sha_ann <;>
    simp [templatehash, tagSeed, templatehashMessage, List.append_assoc]

/-- C2: hashing a full transaction agrees with hashing the
`TransactionTemplate` built from its four committed fields: same version,
lock time, input sequences in order, and outputs in order give the same
digest for every index and annex. -/
theorem c2_transaction_template_agree (tx : Transaction) (input_index : Nat)
    (annex : Option (List Nat)) :
    tx.to_templatehash input_index annex =
      (TransactionTemplate.mk tx.version tx.lock_time
        (tx.input.map TxIn.sequence) tx.output).to_templatehash input_index annex := rfl

set_option maxRecDepth 100000 in
/-- C3: the tagged-hash preimage with the annex absent (presence byte 0,
77 bytes after the tag blocks) differs from the preimage with any annex
digest present (presence byte 1, 109 bytes) in both the flag byte at
offset 72 and the total length, for every template, index and annex byte
string; and on a concrete template the digests with no annex and with the
32-zero-byte annex differ. -/
theorem c3_annex_presence_sensitivity :
    (∀ (t : TransactionTemplate) (input_index : Nat) (any_bytes : List Nat),
      (templatehashMessage t.version t.lock_time (sha_sequences t.sequences)
          (sha_outputs t.outputs) input_index none).length = 77 ∧
      (templatehashMessage t.version t.lock_time (sha_sequences t.sequences)
          (sha_outputs t.outputs) input_index (some (sha_annex any_bytes))).length = 109 ∧
      (templatehashMessage t.version t.lock_time (sha_sequences t.sequences)
          (sha_outputs t.outputs) input_index none).getD 72 0 = 0 ∧
      (templatehashMessage t.version t.lock_time (sha_sequences t.sequences)
          (sha_outputs t.outputs) input_index (some (sha_annex any_bytes))).getD 72 0 = 1 ∧
      templatehashMessage t.version t.lock_time (sha_sequences t.sequences)
          (sha_outputs t.outputs) input_index none ≠
        templatehashMessage t.version t.lock_time (sha_sequences t.sequences)
          (sha_outputs t.outputs) input_index (some (sha_annex any_bytes))) ∧
    TransactionTemplate.to_templatehash ⟨2, 0, [0], [⟨1, []⟩]⟩ 0 none ≠
      TransactionTemplate.to_templatehash ⟨2, 0, [0], [⟨1, []⟩]⟩ 0
        (some (List.replicate 32 0)) := by
  constructor
  · intro t input_index any_bytes
    have hss := sha_sequences_length t.sequences
    have hso := sha_outputs_length t.outputs
    have hpre : (u32LE t.version ++ u32LE t.lock_time ++ sha_sequences t.sequences ++
        sha_outputs t.outputs).length = 72 := by
      simp [u32LE, hss, hso]
    have h77 : (templatehashMessage t.version t.lock_time (sha_sequences t.sequences)
        (sha_outputs t.outputs) input_index none).length = 77 := by
      rw [templatehashMessage_length]; simp [hss, hso]
    have h109 : (templatehashMessage t.version t.lock_time (sha_sequences t.sequences)
        (sha_outputs t.outputs) input_index (some (sha_annex any_bytes))).length = 109 := by
      rw [templatehashMessage_length]
      simp [hss, hso, sha_annex_length]
    refine ⟨h77, h109, ?_, ?_, ?_⟩
    · rw [templatehashMessage_decompose,
        getD_append_of_length _ _ 72 0 hpre]
      rfl
    · rw [templatehashMessage_decompose,
        getD_append_of_length _ _ 72 0 hpre]
      rfl
    · intro he
      rw [he, h109] at h77
      exact absurd h77 (by decide)
  · decide

/-- C4: `sha_sequences` is the plain SHA-256 of the concatenation of the
4-byte little-endian encodings of the sequence values, in list order, over
all entries. -/
theorem c4_sha_sequences_spec :
    (∀ s : Nat, (u32LE s).length = 4) ∧
    ∀ seqs : List Nat, sha_sequences seqs = sha256 (concatEncode u32LE seqs) :=
  ⟨u32LE_length, fun seqs => compute_sha_iter_eq u32LE seqs⟩

/-- C5: `sha_outputs` is the plain SHA-256 of the concatenation, in list
order over all entries, of each output's encoding: the amount as 8 bytes
little-endian followed by the script prefixed with its compact-size
length. -/
theorem c5_sha_outputs_spec :
    (∀ o : TxOut, txOutEncode o =
      u64LE o.value ++ varInt o.script_pubkey.length ++ o.script_pubkey) ∧
    (∀ v : Nat, (u64LE v).length = 8) ∧
    ∀ outs : List TxOut, sha_outputs outs = sha256 (concatEncode txOutEncode outs) :=
  ⟨fun _ => rfl, u64LE_length, fun outs => compute_sha_iter_eq txOutEncode outs⟩

/-- C6: `sha_annex` is the plain SHA-256 of the compact-size encoding of
the length of the annex bytes followed by the bytes unmodified, with no
content validation, and the compact-size prefix follows the 1 / 0xfd+2 /
0xfe+4 / 0xff+8 byte scheme. -/
theorem c6_sha_annex_spec :
    (∀ annex : List Nat, sha_annex annex = sha256 (varInt annex.length ++ annex)) ∧
    (∀ n : Nat, n < 0xfd → varInt n = [n]) ∧
    (∀ n : Nat, 0xfd ≤ n → n ≤ 0xffff → varInt n = 0xfd :: u16LE n) ∧
    (∀ n : Nat, 0xffff < n → n ≤ 0xffffffff → varInt n = 0xfe :: u32LE n) ∧
    (∀ n : Nat, 0xffffffff < n → varInt n = 0xff :: u64LE n) := by
  refine ⟨fun _ => rfl, ?_, ?_, ?_, ?_⟩
  · intro n h
    simp only [varInt]
    rw [if_pos h]
  · intro n h1 h2
    simp only [varInt]
    rw [if_neg (by omega), if_pos h2]
  · intro n h1 h2
    simp only [varInt]
    rw [if_neg (by omega), if_neg (by omega), if_pos h2]
  · intro n h1
    simp only [varInt]
    rw [if_neg (by omega), if_neg (by omega), if_neg (by omega)]

/-- Witness for C6: the compact-size branch facts applied at 0, 300,
70000 and 5000000000. -/
theorem c6_sha_annex_spec_witness :
    ((0 : Nat) < 0xfd ∧ varInt 0 = [0]) ∧
    ((0xfd : Nat) ≤ 300 ∧ (300 : Nat) ≤ 0xffff ∧ varInt 300 = 0xfd :: u16LE 300) ∧
    ((0xffff : Nat) < 70000 ∧ (70000 : Nat) ≤ 0xffffffff ∧
      varInt 70000 = 0xfe :: u32LE 70000) ∧
    ((0xffffffff : Nat) < 5000000000 ∧ varInt 5000000000 = 0xff :: u64LE 5000000000) :=
  ⟨⟨by decide, c6_sha_annex_spec.2.1 0 (by decide)⟩,
   ⟨by decide, by decide, c6_sha_annex_spec.2.2.1 300 (by decide) (by decide)⟩,
   ⟨by decide, by decide, c6_sha_annex_spec.2.2.2.1 70000 (by decide) (by decide)⟩,
   ⟨by decide, c6_sha_annex_spec.2.2.2.2 5000000000 (by decide)⟩⟩

/-- C7: `sha_sequences` and `sha_outputs` on the empty list both return
SHA-256 of the empty byte string, hence are equal to each other, and both
are deterministic 32-byte digests. -/
theorem c7_empty_collections :
    sha_sequences [] = sha256 [] ∧ sha_outputs [] = sha256 [] ∧
    sha_sequences [] = sha_outputs [] ∧ (sha_sequences []).length = 32 ∧
    (sha_outputs []).length = 32 :=
  ⟨rfl, rfl, rfl, rfl, rfl⟩

/-- C8: the digest depends only on the committed fields, the index and the
annex: two transactions that agree on version, lock time, the ordered
sequence values and the ordered outputs hash identically for the same
index and annex, whatever their outpoints, scriptSigs or witnesses. -/
theorem c8_depends_only_on_committed (tx1 tx2 : Transaction) (input_index : Nat)
    (annex : Option (List Nat))
    (hv : tx1.version = tx2.version) (hl : tx1.lock_time = tx2.lock_time)
    (hs : tx1.input.map TxIn.sequence = tx2.input.map TxIn.sequence)
    (ho : tx1.output = tx2.output) :
    tx1.to_templatehash input_index annex = tx2.to_templatehash input_index annex := by
  simp [Transaction.to_templatehash, hv, hl, hs, ho]

/-- Witness for C8: two transactions differing in outpoint, scriptSig and
witness but agreeing on the committed fields hash identically. -/
theorem c8_depends_only_on_committed_witness :
    ((Transaction.mk 2 0 [TxIn.mk (OutPoint.mk (List.replicate 32 1) 0) [1, 2] 5 []]
        [TxOut.mk 7 [0x51]]).version =
      (Transaction.mk 2 0 [TxIn.mk (OutPoint.mk (List.replicate 32 9) 3) [] 5 [[0xaa]]]
        [TxOut.mk 7 [0x51]]).version ∧
     (Transaction.mk 2 0 [TxIn.mk (OutPoint.mk (List.replicate 32 1) 0) [1, 2] 5 []]
        [TxOut.mk 7 [0x51]]).lock_time =
      (Transaction.mk 2 0 [TxIn.mk (OutPoint.mk (List.replicate 32 9) 3) [] 5 [[0xaa]]]
        [TxOut.mk 7 [0x51]]).lock_time ∧
     (Transaction.mk 2 0 [TxIn.mk (OutPoint.mk (List.replicate 32 1) 0) [1, 2] 5 []]
        [TxOut.mk 7 [0x51]]).input.map TxIn.sequence =
      (Transaction.mk 2 0 [TxIn.mk (OutPoint.mk (List.replicate 32 9) 3) [] 5 [[0xaa]]]
        [TxOut.mk 7 [0x51]]).input.map TxIn.sequence ∧
     (Transaction.mk 2 0 [TxIn.mk (OutPoint.mk (List.replicate 32 1) 0) [1, 2] 5 []]
        [TxOut.mk 7 [0x51]]).output =
      (Transaction.mk 2 0 [TxIn.mk (OutPoint.mk (List.replicate 32 9) 3) [] 5 [[0xaa]]]
        [TxOut.mk 7 [0x51]]).output) ∧
    (Transaction.mk 2 0 [TxIn.mk (OutPoint.mk (List.replicate 32 1) 0) [1, 2] 5 []]
        [TxOut.mk 7 [0x51]]).to_templatehash 0 none =
      (Transaction.mk 2 0 [TxIn.mk (OutPoint.mk (List.replicate 32 9) 3) [] 5 [[0xaa]]]
        [TxOut.mk 7 [0x51]]).to_templatehash 0 none :=
  ⟨⟨rfl, rfl, rfl, rfl⟩,
   c8_depends_only_on_committed _ _ 0 none rfl rfl rfl rfl⟩

/-- C9: under the precondition that the index is in range of the sequence
list, the debug-build assertion never fires and both view types return the
digest; the release-build functions are total and return a 32-byte digest
even for an arbitrary (possibly out-of-range) index. -/
theorem c9_debug_bounds_check (tx : Transaction) (t : TransactionTemplate)
    (input_index jdx : Nat) (annex : Option (List Nat))
    (h1 : input_index < tx.input.length) (h2 : input_index < t.sequences.length) :
    tx.to_templatehash_debug input_index annex =
      some (tx.to_templatehash input_index annex) ∧
    t.to_templatehash_debug input_index annex =
      some (t.to_templatehash input_index annex) ∧
    (Transaction.to_templatehash tx jdx annex).length = 32 ∧
    (TransactionTemplate.to_templatehash t jdx annex).length = 32 := by
  refine ⟨?_, ?_, sha256_length _, sha256_length _⟩
  · simp [Transaction.to_templatehash_debug, h1]
  · simp [TransactionTemplate.to_templatehash_debug, h2]

/-- Witness for C9: a one-input transaction and a one-sequence template at
index 0, with the release-build totality instantiated at the out-of-range
index 5. -/
theorem c9_debug_bounds_check_witness :
    ((0 : Nat) < (Transaction.mk 2 0 [TxIn.mk (OutPoint.mk [] 0) [] 0 []]
        [TxOut.mk 1 []]).input.length ∧
     (0 : Nat) < (TransactionTemplate.mk 2 0 [0] [TxOut.mk 1 []]).sequences.length) ∧
    ((Transaction.mk 2 0 [TxIn.mk (OutPoint.mk [] 0) [] 0 []]
        [TxOut.mk 1 []]).to_templatehash_debug 0 none =
      some ((Transaction.mk 2 0 [TxIn.mk (OutPoint.mk [] 0) [] 0 []]
        [TxOut.mk 1 []]).to_templatehash 0 none) ∧
     (TransactionTemplate.mk 2 0 [0] [TxOut.mk 1 []]).to_templatehash_debug 0 none =
      some ((TransactionTemplate.mk 2 0 [0] [TxOut.mk 1 []]).to_templatehash 0 none) ∧
     (Transaction.to_templatehash (Transaction.mk 2 0 [TxIn.mk (OutPoint.mk [] 0) [] 0 []]
        [TxOut.mk 1 []]) 5 none).length = 32 ∧
     (TransactionTemplate.to_templatehash (TransactionTemplate.mk 2 0 [0]
        [TxOut.mk 1 []]) 5 none).length = 32) :=
  ⟨⟨by decide, by decide⟩,
   c9_debug_bounds_check _ _ 0 5 none (by decide) (by decide)⟩

/-- C10: the low-level `templatehash` is total: for every version, lock
time, digest arguments, index and optional annex digest it returns the
32-byte digest of its serialization formula, with no validation relating
the index to any sequence list. -/
theorem c10_templatehash_total (version lock_time input_index : Nat)
    (sha_seq sha_out : List Nat) (sha_ann : Option (List Nat)) :
    (templatehash version lock_time sha_seq sha_out input_index sha_ann).length = 32 ∧
    templatehash version lock_time sha_seq sha_out input_index sha_ann =
      sha256 (tagSeed ++
        templatehashMessage version lock_time sha_seq sha_out input_index sha_ann) :=
  ⟨sha256_length _, rfl⟩

end TemplateHashLib
